import Mathlib

/-!
Verification of the `@itavy/mq-router` MQRouter orchestrator
(`src/lib/latest/MQRouter.js`) against its natural-language specification.

The embedding is shallow: each JavaScript method is translated into a pure
Lean function over explicit state.  External collaborators (connector,
serializer, the two routing-table modules and the `IError` class from
`@itavy/ierror`, none of which are under `src/`) are modelled from the spec
where a claim depends on them; every such definition carries a
`Modelled from the spec:` doc comment.  JavaScript-specific semantics that
the source relies on (strict equality against `undefined`, `||` defaulting,
`Reflect.construct` with a non-array argument list) are modelled explicitly
and documented at their definitions.
-/

namespace MQRouter

/-- Error values observable in the model.
  * `named n` — Modelled from the spec: errors raised by collaborator modules
    that are not under `src/` (e.g. `HandlerNotFoundError` from the queues
    routing table §4.3, `DuplicateIdError` from the requests routing table
    §4.2) and opaque transport failures.
  * `typeError` — a JavaScript `TypeError` (e.g. from calling a class
    constructor without `new`, or `Reflect.construct` without an arguments
    list).
  * `ierrorBare` — Modelled from the spec: an `IError` produced by
    `Reflect.construct(IError, obj)` where `obj` is a plain (non-array)
    object.  ES `CreateListFromArrayLike` reads `obj.length` (undefined,
    coerced to 0), so the constructor receives zero arguments: the resulting
    error carries no name, no source and no cause.
  * `ierror name source cause` — an `IError` correctly constructed via
    `Reflect.construct(IError, [{name, source, cause}])`. -/
inductive ErrV where
  | named (n : String)
  | typeError
  | ierrorBare
  | ierror (name source : String) (cause : ErrV)
deriving DecidableEq

/-- The `name` carried by an error value, if any. -/
def errName : ErrV → Option String
  | .named n => some n
  | .ierror n _ _ => some n
  | _ => none

/-- The `source` (originating operation identity) carried by an error, if any. -/
def errSource : ErrV → Option String
  | .ierror _ s _ => some s
  | _ => none

/-- The wrapped `cause` carried by an error, if any. -/
def errCause : ErrV → Option ErrV
  | .ierror _ _ c => some c
  | _ => none

/-- A destination descriptor `{queue, exchange}`.  `queue = none` models a
JavaScript object with no `queue` property (accessing it yields undefined). -/
structure Destination where
  queue : Option String
  exchange : String
deriving DecidableEq

/-- A JavaScript value passed as the `message` argument: either a binary
`Buffer` (modelled as a list of bytes) or any non-Buffer value (`nonBuf`,
covering also `undefined`), which `buildRequest` rejects. -/
inductive MsgVal where
  | buf (b : List Nat)
  | nonBuf
deriving DecidableEq

/-- The wire envelope built by `buildRequest` via the external
`@itavy/mq-structure` builder.  Its fields are exactly those passed at
`MQRouter.js:526-533` and listed in spec §6: `id`, `replyTo`, `replyOn`,
`from`, `to`, `message`.  (`from` and `to` are Lean keywords, so those
fields are named `sender` and `recipient` here.)  There is no `replyId`
field. -/
structure Envelope where
  id : String
  replyTo : String
  replyOn : Destination
  sender : String
  recipient : String
  message : List Nat
deriving DecidableEq

/-- How a pending request in the correlation table was settled. -/
inductive Settlement where
  | resolvedMsg (m : List Nat)
  | rejected (e : ErrV)
  | timedOut
deriving DecidableEq

/-- Modelled from the spec: the `MQRequestsRoutingTable` (request correlation
table, §4.2), whose module is not under `src/`.  `pending` maps a message id
to the registered ttl; `settlements` records how entries were settled (the
future returned by `register` settles accordingly). -/
structure RequestsTable where
  pending : List (String × Nat)
  settlements : List (String × Settlement)
deriving DecidableEq

/-- Modelled from the spec (§4.2): `register(id, ttl)` inserts a new pending
entry and fails with `DuplicateIdError` if `id` is already present. -/
def RequestsTable.register (t : RequestsTable) (id : String) (ttl : Nat) :
    Except ErrV RequestsTable :=
  match t.pending.find? (fun p => p.1 == id) with
  | some _ => .error (.named "DuplicateIdError")
  | none => .ok { t with pending := (id, ttl) :: t.pending }

/-- Modelled from the spec (§4.2): `unregister(id, error)` evicts the entry
and settles its future with a rejection carrying `error`. -/
def RequestsTable.unregister (t : RequestsTable) (id : String) (e : ErrV) :
    RequestsTable :=
  { pending := t.pending.filter (fun p => !(p.1 == id)),
    settlements := t.settlements ++ [(id, Settlement.rejected e)] }

/-- A record of one `connector.sendMessage` invocation
(`MQRouter.js:180-183`): the destination fields, the message and the ttl
option.  The external serializer is modelled as the identity on envelopes
(spec §6 requires it to round-trip every field exactly), so the envelope
itself stands for the serialized payload. -/
structure SendCall where
  destination : Destination
  envelope : Envelope
  ttl : Nat
deriving DecidableEq

/-- Router state threaded through the send-side operations: constructor
configuration (`name`, `defaultTTL` already scaled to milliseconds,
`returnDestination`), the correlation table, and the log of transport sends. -/
structure Router where
  name : String
  defaultTTL : Nat
  returnDestination : Destination
  requestsTable : RequestsTable
  sends : List SendCall
deriving DecidableEq

/-- Model of `this.sourceIdentifier` (`MQRouter.js:49`). -/
def sourceIdentifier (r : Router) : String := r.name ++ ".MQRouter"

/-- Modelled from the spec: `MS_FACTOR` from the `Helpers` module (not under
`src/`); the seconds-to-milliseconds scale ("seconds in the public API,
milliseconds internally", spec §9). -/
def MS_FACTOR : Nat := 1000

/-- Modelled from the spec: `NS_FACTOR` from the `Helpers` module (not under
`src/`); nanoseconds per second, used to flatten a `process.hrtime` pair
(spec §4.1: `elapsedNanos = now - startTime`). -/
def NS_FACTOR : Nat := 1000000000

/-- Model of `this.defaultTTL = defaultTTL * MS_FACTOR` (`MQRouter.js:59`), with the
constructor default `defaultTTL = 5`. -/
def mkRouterDefaultTTL (defaultTTL : Nat) : Nat := defaultTTL * MS_FACTOR

/-- JavaScript `options.ttl || this.defaultTTL` (`MQRouter.js:170`): `none`
models an absent `ttl` option and `some 0` a supplied `0`, which is falsy in
JavaScript, so `||` falls back to the default in both cases. -/
def jsOr (o : Option Nat) (d : Nat) : Nat :=
  match o with
  | none => d
  | some t => if t = 0 then d else t

/-- Decimal digit to its character. -/
def digitChar : Nat → Char
  | 0 => '0' | 1 => '1' | 2 => '2' | 3 => '3' | 4 => '4'
  | 5 => '5' | 6 => '6' | 7 => '7' | 8 => '8' | _ => '9'

/-- Character back to its decimal digit (left inverse of `digitChar` below 10). -/
def charDigit : Char → Nat
  | '0' => 0 | '1' => 1 | '2' => 2 | '3' => 3 | '4' => 4
  | '5' => 5 | '6' => 6 | '7' => 7 | '8' => 8 | _ => 9

/-- Little-endian base-10 digits of `n`, with explicit fuel (`n` itself
suffices) so the definition is structural and kernel-reducible. -/
def decDigits : Nat → Nat → List Nat
  | 0, _ => []
  | f + 1, n => if n = 0 then [] else n % 10 :: decDigits f (n / 10)

/-- Value of a little-endian digit list. -/
def undigits : List Nat → Nat
  | [] => 0
  | d :: ds => d + 10 * undigits ds

/-- The decimal string for `n`: the model of JavaScript number-to-string
conversion in the template literal of `getMessageId` (`MQRouter.js:549`). -/
def decimalRepr (n : Nat) : String :=
  if n = 0 then "0" else String.mk (((decDigits n n).map digitChar).reverse)

/-- Parse a decimal string back to its value (used to prove `decimalRepr`
injective). -/
def reprVal (s : String) : Nat := undigits ((s.data.map charDigit).reverse)

/-- Model of `getMessageId` (`MQRouter.js:547-550`):
`diff = process.hrtime(startTime)` is the elapsed `(seconds, nanos)` pair;
the id is `` `${name}.${diff[0] * NS_FACTOR + diff[1]}` ``. -/
def getMessageId (name : String) (diff : Nat × Nat) : String :=
  name ++ "." ++ decimalRepr (diff.1 * NS_FACTOR + diff.2)

/-- Model of `validateDestination` (`MQRouter.js:558-567`): accepts when
`queue && queue.length !== 0`; otherwise it throws.  The thrown value is the
evaluation of `Reflect.construct(IError({name, source}))`: `IError` is a
class, so calling it without `new` raises a `TypeError` (and even were it
callable, `Reflect.construct` with no arguments list also raises a
`TypeError`), hence the rejection is `typeError`, not the intended `IError`
named `MQ_ROUTER_VALIDATE_DESTINATION`. -/
def validateDestination (d : Destination) : Except ErrV Bool :=
  match d.queue with
  | some q => if q = "" then .error .typeError else .ok true
  | none => .error .typeError

/-- Model of `buildRequest` (`MQRouter.js:518-540`) evaluated at a clock reading
`clock = process.hrtime(startTime)`.  A non-Buffer message throws the error
built at lines 521-524 by `Reflect.construct(IError, {..})` — a non-array
arguments object, hence a bare zero-argument `IError`.  Otherwise the
envelope is built with a fresh id, `replyTo = replyId`,
`replyOn = this.returnDestination` and `from = this.identification.name`;
serialization is the identity (see `SendCall`). -/
def buildRequest (r : Router) (message : MsgVal) (replyId recipient : String)
    (clock : Nat × Nat) : Except ErrV Envelope :=
  match message with
  | .nonBuf => .error .ierrorBare
  | .buf b =>
      .ok { id := getMessageId r.name clock
            replyTo := replyId
            replyOn := r.returnDestination
            sender := r.name
            recipient := recipient
            message := b }

/-- The value returned by `sendMQMsg`: `true` for a fire-and-forget send, or
the future returned by `requestsRoutingTable.register` for a request. -/
inductive SendResponse where
  | boolTrue
  | future (id : String)
deriving DecidableEq

/-- Model of `sendMQMsg` (`MQRouter.js:158-194`).  Parameters mirror the source's
destructured argument `{message, destination, options = {}, isRequest =
false}` — note there is no `replyId` parameter, so `buildRequest` is invoked
with `replyId = ''` (the source calls it with only `{message, destination}`).
`clock` is the hrtime reading taken inside `getMessageId`; `sendOutcome` is
the outcome of the external `connector.sendMessage` call (`none` = accepted,
`some e` = rejected with `e`).  The pair returned is the router state after
the call (a JavaScript throw does not roll back prior mutations) together
with the normal result or the thrown error. -/
def sendMQMsg (r : Router) (message : MsgVal) (destination : Destination)
    (ttlOpt : Option Nat) (isRequest : Bool) (clock : Nat × Nat)
    (sendOutcome : Option ErrV) : Router × Except ErrV SendResponse :=
  match validateDestination destination with
  | .error e => (r, .error e)
  | .ok _ =>
    match buildRequest r message "" "" clock with
    | .error e => (r, .error e)
    | .ok env =>
      let lTtl := jsOr ttlOpt r.defaultTTL
      match isRequest with
      | false =>
        let r1 := { r with sends := r.sends ++ [⟨destination, env, lTtl⟩] }
        match sendOutcome with
        | none => (r1, .ok .boolTrue)
        | some e => (r1, .error e)
      | true =>
        match r.requestsTable.register env.id lTtl with
        | .error e => (r, .error e)
        | .ok tbl =>
          let r1 := { r with requestsTable := tbl
                             sends := r.sends ++ [⟨destination, env, lTtl⟩] }
          match sendOutcome with
          | none => (r1, .ok (.future env.id))
          | some e =>
              ({ r1 with requestsTable := r1.requestsTable.unregister env.id e },
               .ok (.future env.id))

/-- Model of `respondToRequest` (`MQRouter.js:451-461`): `message === null` (here
`none`) returns `true` without sending; otherwise it calls `sendMQMsg` with
`isRequest: false`.  The source also passes `replyId`, but `sendMQMsg` has no
such parameter (see `sendMQMsg`), so the value is dropped — it is received
here and unused, exactly as in the source. -/
def respondToRequest (r : Router) (message : Option MsgVal) (replyId : String)
    (destination : Destination) (clock : Nat × Nat) (sendOutcome : Option ErrV) :
    Router × Except ErrV SendResponse :=
  match message with
  | none => (r, .ok .boolTrue)
  | some m =>
      let _ := replyId
      sendMQMsg r m destination none false clock sendOutcome

/-- Model of `sendMessage` (`MQRouter.js:96-116`): fire-and-forget send.
Line 102 is `return this.sendMQMsg({..})` with no `await`: calling an async
method never throws synchronously, it returns a promise that the `return`
adopts, so the `catch` at lines 108-115 (which would wrap the cause as
`MQ_ROUTER_SEND_MESSAGE_ERROR`) can never fire — a `sendMQMsg` rejection
reaches the caller unwrapped, and `sendMessage` is exactly `sendMQMsg` with
`isRequest: false`. -/
def sendMessage (r : Router) (message : MsgVal) (destination : Destination)
    (ttlOpt : Option Nat) (clock : Nat × Nat) (sendOutcome : Option ErrV) :
    Router × Except ErrV SendResponse :=
  sendMQMsg r message destination ttlOpt false clock sendOutcome

/-- The body of `sendRequest` (`MQRouter.js:126-147`) after the
`checkIfIsSelfSubscribedForResponses` await (that bootstrap is modelled
separately as `bootEntry`/`bootResumeOk`).  Line 133 is
`return this.sendMQMsg({..})` with no `await`, so the `catch` at lines
139-146 (wrapping as `MQ_ROUTER_SEND_REQUEST_ERROR`, line 141) only catches
bootstrap failures: a `sendMQMsg` rejection propagates to the caller
unwrapped, and the post-bootstrap body is exactly `sendMQMsg` with
`isRequest: true`. -/
def sendRequestCore (r : Router) (message : MsgVal) (destination : Destination)
    (ttlOpt : Option Nat) (clock : Nat × Nat) (sendOutcome : Option ErrV) :
    Router × Except ErrV SendResponse :=
  sendMQMsg r message destination ttlOpt true clock sendOutcome

/-- State touched by the self-subscription bootstrap
(`checkIfIsSelfSubscribedForResponses`, `MQRouter.js:305-339`):
`this.identification.subscribed` / `.subscribing` (constructor lines 70-71),
the recorded return destination queue (`this.returnDestination.queue`,
initially `null`, line 76), the number of `connector.subscribe` calls issued
so far, and the payloads emitted on the one-shot `selfSubscribed` event
(`none` = `{error: null}`). -/
structure BootState where
  subscribed : Bool
  subscribing : Bool
  returnQueue : Option String
  connectorSubscribes : Nat
  events : List (Option ErrV)
deriving DecidableEq

/-- Where a caller of the bootstrap is after its synchronous entry segment:
returned `true` immediately, suspended at `await this.subscribe(..)` (having
issued a transport subscribe), or suspended in `waitForSelfSubscription`
awaiting the `selfSubscribed` event. -/
inductive BootCont where
  | doneTrue
  | awaitingSubscribe
  | awaitingEvent
deriving DecidableEq

/-- Fresh-router bootstrap state (constructor, `MQRouter.js:63-78`):
`subscribed = false`, `subscribing = false`, `returnDestination.queue = null`. -/
def freshBoot : BootState :=
  { subscribed := false, subscribing := false, returnQueue := none,
    connectorSubscribes := 0, events := [] }

/-- The synchronous entry segment of `checkIfIsSelfSubscribedForResponses`
(`MQRouter.js:305-314`), which runs atomically up to the first suspension:
if `subscribed`, return `true`; if `subscribing`, wait for the
`selfSubscribed` event; otherwise execute line 312 — which assigns
`this.identification.subscribing = false` (not `true`) — and issue the
transport-level subscribe inside `await this.subscribe(..)`, suspending
there. -/
def bootEntry (s : BootState) : BootState × BootCont :=
  if s.subscribed then (s, .doneTrue)
  else if s.subscribing then (s, .awaitingEvent)
  else ({ s with subscribing := false,
                 connectorSubscribes := s.connectorSubscribes + 1 },
        .awaitingSubscribe)

/-- The resumption of `checkIfIsSelfSubscribedForResponses` after its
`this.subscribe(..)` await succeeds with `{queue, topic}`
(`MQRouter.js:320-327`): record the return destination (topic if non-empty,
else the assigned queue), set `subscribing = false`, and emit
`selfSubscribed {error: null}`.  No assignment to
`this.identification.subscribed` occurs anywhere in the method. -/
def bootResumeOk (s : BootState) (queue topic : String) : BootState :=
  { s with
      returnQueue := some (if topic = "" then queue else topic),
      subscribing := false,
      events := s.events ++ [none] }

deriving instance DecidableEq for Except

/-- One registration in the queues routing table.  Modelled from the spec
(§4.3): the `MQQueuesRoutingTable` module is not under `src/`.  Since
`routeMessage` invokes the stored handler via
`handler.apply(handler, {..})` — a non-array-like second argument, so the
handler runs with zero arguments (ES `Function.prototype.apply`) — a stored
handler is fully described by the outcome of its zero-argument invocation:
either a thrown error or a returned object whose `message` property is the
response payload (`none` modelling a `null` response). -/
structure QueueReg where
  index : Nat
  queue : String
  topic : String
  exchange : String
  handlerResult : Except ErrV (Option MsgVal)
  consumerTag : Option String
deriving DecidableEq

/-- Modelled from the spec (§4.3): the queues routing table state. -/
structure QueuesTable where
  regs : List QueueReg
deriving DecidableEq

/-- Modelled from the spec (§4.3): `getHandlerByConsumerTag` returns the
matching registration's handler, and fails with `HandlerNotFoundError` when
no registration carries that consumer tag. -/
def QueuesTable.getHandlerByConsumerTag (t : QueuesTable) (ct : String) :
    Except ErrV (Except ErrV (Option MsgVal)) :=
  match t.regs.find? (fun reg => reg.consumerTag == some ct) with
  | some reg => .ok reg.handlerResult
  | none => .error (.named "HandlerNotFoundError")

/-- One payload of an `mqrEvents.emit('error', {..})` broadcast.  The
constructor (`MQRouter.js:80-84`) forwards every such payload to the
configured `errorCollector`, so for a configured collector this list is
exactly the list of collector notifications. -/
structure ErrEvent where
  error : ErrV
  consumerTag : String
deriving DecidableEq

/-- The delivery context handed to `routeMessage` (`MQRouter.js:352-359`):
the decoded envelope plus queue/topic/exchange/consumerTag.  The `nack`
handle is an opaque external object and is not inspected by any claim. -/
structure RouteCtx where
  message : Envelope
  consumerTag : String
  queue : String
  topic : String
  exchange : String
deriving DecidableEq

/-- Model of `routeMessage` (`MQRouter.js:352-392`): look up the handler by consumer
tag, invoke it (with zero arguments — see `QueueReg`), and hand its
`message` property to `respondToRequest` with `replyId: message.id` and
`destination: message.replyOn`.  The lookup and the handler invocation are
awaited (lines 361-362), so their failures are caught: the catch clause
builds `Reflect.construct(IError, {name, source, cause})` — a non-array
arguments object, hence a bare zero-argument `IError` (`ierrorBare`) —
emits exactly one `'error'` event carrying it, and rethrows it.  Line 370,
however, is `return this.respondToRequest({..})` with no `await`: that
promise is adopted by the `return`, so a `respondToRequest` rejection
bypasses the catch — no `'error'` event is emitted and the raw error
propagates to the caller.  Returns the router state, the emitted error
events, and the result or thrown error. -/
def routeMessage (r : Router) (t : QueuesTable) (c : RouteCtx)
    (clock : Nat × Nat) (sendOutcome : Option ErrV) :
    Router × List ErrEvent × Except ErrV SendResponse :=
  match t.getHandlerByConsumerTag c.consumerTag with
  | .error _cause => (r, [⟨.ierrorBare, c.consumerTag⟩], .error .ierrorBare)
  | .ok handlerResult =>
    match handlerResult with
    | .error _cause => (r, [⟨.ierrorBare, c.consumerTag⟩], .error .ierrorBare)
    | .ok responseMessage =>
      match respondToRequest r responseMessage c.message.id c.message.replyOn
          clock sendOutcome with
      | (r', .ok v) => (r', [], .ok v)
      | (r', .error cause) => (r', [], .error cause)

/-- JavaScript property access `message.replyId` as performed by `ownHandler`
(`MQRouter.js:265, 274`).  The envelope built by `buildRequest` via the
external `@itavy/mq-structure` builder has exactly the fields `id`,
`replyTo`, `replyOn`, `from`, `to`, `message` (spec §6; `MQRouter.js:526-533`)
— there is no `replyId` property, so the access evaluates to `undefined`
(`none`).  Modelled from the spec: the `@itavy/mq-structure` message shape
(the module is not under `src/`). -/
def jsGetReplyId (_e : Envelope) : Option String := none

/-- JavaScript strict equality `x === ''` where `x` is a string or
`undefined` (`none`): `undefined === ''` is `false`. -/
def jsStrictEqEmpty : Option String → Bool
  | some s => s = ""
  | none => false

/-- The dispatch decision taken by `ownHandler`: route to
`requestsRoutingTable.callById` with the given id (`none` = JavaScript
`undefined`), or to `defaultMessageConsumer`. -/
inductive OwnAction where
  | callById (id : Option String) (m : List Nat)
  | defaultConsume (m : List Nat)
deriving DecidableEq

/-- Model of `ownHandler` (`MQRouter.js:259-282`) reduced to its dispatch decision on
the received envelope: if `message.replyId === ''` it forwards the payload to
`defaultMessageConsumer`, otherwise it calls
`requestsRoutingTable.callById({id: message.replyId, ..})`. -/
def ownHandler (e : Envelope) : OwnAction :=
  if jsStrictEqEmpty (jsGetReplyId e) then .defaultConsume e.message
  else .callById (jsGetReplyId e) e.message

theorem undigits_decDigits (f : Nat) : ∀ n : Nat, n ≤ f → undigits (decDigits f n) = n := by
  induction f with
  | zero =>
    intro n h
    have h0 : n = 0 := Nat.le_zero.mp h
    subst h0
    rfl
  | succ f ih =>
    intro n h
    by_cases h0 : n = 0
    · subst h0; simp [decDigits, undigits]
    · have hdiv : n / 10 ≤ f := by
        have hlt : n / 10 < n := Nat.div_lt_self (Nat.pos_of_ne_zero h0) (by decide)
        omega
      simp only [decDigits, h0, if_false, undigits, ih _ hdiv]
      omega

theorem decDigits_lt (f : Nat) : ∀ n : Nat, ∀ d ∈ decDigits f n, d < 10 := by
  induction f with
  | zero => intro n d hd; simp [decDigits] at hd
  | succ f ih =>
    intro n d hd
    by_cases h0 : n = 0
    · subst h0; simp [decDigits] at hd
    · simp only [decDigits, h0, if_false, List.mem_cons] at hd
      rcases hd with h | h
      · subst h; exact Nat.mod_lt _ (by decide)
      · exact ih _ _ h

theorem charDigit_digitChar (d : Nat) (h : d < 10) : charDigit (digitChar d) = d := by
  interval_cases d <;> rfl

theorem map_digitChar_roundtrip :
    ∀ l : List Nat, (∀ d ∈ l, d < 10) →
      l.map (fun d => charDigit (digitChar d)) = l := by
  intro l
  induction l with
  | nil => intro _; rfl
  | cons a t ih =>
    intro h
    have ha : a < 10 := h a (by simp)
    have ht : ∀ d ∈ t, d < 10 := fun d hd => h d (by simp [hd])
    simp [charDigit_digitChar a ha, ih ht]

/-- Parsing is a left inverse of printing: `reprVal` undoes `decimalRepr`. -/
theorem reprVal_decimalRepr (n : Nat) : reprVal (decimalRepr n) = n := by
  by_cases h0 : n = 0
  · subst h0; rfl
  · simp only [decimalRepr, h0, if_false, reprVal]
    show undigits ((((decDigits n n).map digitChar).reverse.map charDigit).reverse) = n
    rw [List.map_reverse, List.reverse_reverse, List.map_map]
    have : ((decDigits n n).map (charDigit ∘ digitChar)) = decDigits n n := by
      simpa [Function.comp] using map_digitChar_roundtrip (decDigits n n) (decDigits_lt n n)
    rw [this]
    exact undigits_decDigits n n le_rfl

theorem decimalRepr_injective {a b : Nat} (h : decimalRepr a = decimalRepr b) : a = b := by
  have := congrArg reprVal h
  simpa [reprVal_decimalRepr] using this

theorem strData_append (s t : String) : (s ++ t).data = s.data ++ t.data := by
  cases s; cases t; rfl

theorem string_ext {s t : String} (h : s.data = t.data) : s = t := by
  cases s; cases t; exact congrArg String.mk h

/-- Two distinct `process.hrtime` readings (nanosecond component below one
second, as `hrtime` guarantees) always produce distinct message ids. -/
theorem getMessageId_inj {name : String} {d1 d2 : Nat × Nat}
    (h1 : d1.2 < NS_FACTOR) (h2 : d2.2 < NS_FACTOR)
    (h : getMessageId name d1 = getMessageId name d2) : d1 = d2 := by
  have hd := congrArg String.data h
  simp only [getMessageId, strData_append] at hd
  have hr : (decimalRepr (d1.1 * NS_FACTOR + d1.2)).data
      = (decimalRepr (d2.1 * NS_FACTOR + d2.2)).data :=
    List.append_cancel_left hd
  have hrepr := decimalRepr_injective (string_ext hr)
  simp only [NS_FACTOR] at h1 h2 hrepr
  have : d1.1 = d2.1 ∧ d1.2 = d2.2 := by omega
  exact Prod.ext this.1 this.2

/-- Entries whose key was not found by `find?` are untouched by a
`filter` that removes that key. -/
theorem filter_ne_of_find?_eq_none (l : List (String × Nat)) (id : String)
    (h : l.find? (fun p => p.1 == id) = none) :
    l.filter (fun p => !(p.1 == id)) = l := by
  induction l with
  | nil => rfl
  | cons a t ih =>
    rw [List.find?_cons] at h
    cases hfa : (a.1 == id) with
    | true =>
      rw [hfa] at h
      exact absurd h (by simp)
    | false =>
      rw [hfa] at h
      have ht : List.find? (fun p => p.1 == id) t = none := h
      simp [List.filter_cons, hfa, ih ht]

/-- A router named "A" with the constructor-default TTL of 5 seconds and an
empty correlation table, self-subscribed on queue "A-q". -/
def routerA : Router :=
  ⟨"A", mkRouterDefaultTTL 5, ⟨some "A-q", ""⟩, ⟨[], []⟩, []⟩

/-- A router named "B" self-subscribed on queue "B-q" with default TTL
5000 ms, used as the receiving router of the routing scenarios. -/
def routerB : Router :=
  ⟨"B", mkRouterDefaultTTL 5, ⟨some "B-q", ""⟩, ⟨[], []⟩, []⟩

/-- The bytes of `"pong"`. -/
def pongBuf : List Nat := [112, 111, 110, 103]

/-- An inbound envelope: request "A.5" from router "A" asking for replies on
queue "rq", payload `"ping"`. -/
def inboundEnv : Envelope :=
  ⟨"A.5", "", ⟨some "rq", ""⟩, "A", "", [112, 105, 110, 103]⟩

/-- A queues routing table tracking exactly one consumer, tag "ct-1", whose
handler returns the non-null response payload `"pong"`. -/
def oneRegTable : QueuesTable :=
  ⟨[⟨0, "q1", "", "", .ok (some (.buf pongBuf)), some "ct-1"⟩]⟩

/-- Claim C1 (code bug): two `sendRequest` calls arrive concurrently on a
fresh router, the second entering the bootstrap while the first is suspended
at its transport subscribe.  The claim requires exactly one transport-level
subscribe, with the second caller suspending on the `selfSubscribed` event.
In the code, line 312 assigns `subscribing = false` instead of `true` (and
`subscribing` is never set to `true` anywhere), so the second caller also
observes `subscribing == false`, takes the subscribe branch itself, and two
transport subscribes are issued; the wait branch is never taken. -/
theorem c1_concurrent_bootstrap_double_subscribe :
    (bootEntry freshBoot).2 = BootCont.awaitingSubscribe
    ∧ (bootEntry freshBoot).1.subscribing = false
    ∧ (bootEntry (bootEntry freshBoot).1).2 = BootCont.awaitingSubscribe
    ∧ (bootEntry (bootEntry freshBoot).1).1.connectorSubscribes = 2 := by
  decide

/-- The bootstrap state after one caller's entry and a successful transport
subscribe that confirmed queue "amq.gen-1" with no topic binding. -/
def bootAfterSuccess : BootState :=
  bootResumeOk (bootEntry freshBoot).1 "amq.gen-1" ""

/-- Claim C2 (code bug): after a fully successful
`checkIfIsSelfSubscribedForResponses` run the claim requires the router to be
in the *subscribed* state, so that a later `sendRequest` returns from the
bootstrap immediately without another transport subscribe.  The code records
the return destination (the assigned queue, since no topic is bound) but
never assigns `this.identification.subscribed = true` anywhere in the method,
so the router stays idle and the next bootstrap entry issues a second
transport-level subscribe instead of returning immediately. -/
theorem c2_bootstrap_never_reaches_subscribed :
    bootAfterSuccess.subscribed = false
    ∧ bootAfterSuccess.returnQueue = some "amq.gen-1"
    ∧ bootAfterSuccess.events = [none]
    ∧ (bootEntry bootAfterSuccess).2 = BootCont.awaitingSubscribe
    ∧ (bootEntry bootAfterSuccess).1.connectorSubscribes = 2 := by
  decide

/-- Claim C3 (code bug): a delivery of request "A.5" (reply destination
queue "rq") is routed to a handler that returns the non-null payload "pong".
Exactly one response envelope is sent and its destination is the original
message's `replyOn`, as the claim states — but its `replyTo` is `""` rather
than the original message id "A.5": `respondToRequest` passes
`replyId: message.id` to `sendMQMsg`, which has no `replyId` parameter and
invokes `buildRequest` with only `{message, destination}`, so the
correlation id is silently dropped. -/
theorem c3_response_replyTo_dropped :
    (routeMessage routerB oneRegTable ⟨inboundEnv, "ct-1", "q1", "", ""⟩
        (0, 7) none).1.sends.map (fun sc => sc.destination) = [inboundEnv.replyOn]
    ∧ (routeMessage routerB oneRegTable ⟨inboundEnv, "ct-1", "q1", "", ""⟩
        (0, 7) none).1.sends.map (fun sc => sc.envelope.replyTo) = [""]
    ∧ inboundEnv.id = "A.5"
    ∧ ("A.5" : String) ≠ "" := by
  decide

/-- Claim C4 (confirmed): when a request's correlation-table registration
succeeded but the transport send fails with `e`, `sendMQMsg` removes the
registration via `unregister` carrying `e` — the pending entry is gone and
the entry's future settles with a rejection of `e` — and still returns the
future; for a fire-and-forget send (no registration, `response === true`)
the same failure is re-raised to the caller and the table is untouched. -/
theorem c4_send_failure_rolls_back_registration (r : Router) (m : List Nat)
    (q ex : String) (ttlOpt : Option Nat) (clock : Nat × Nat) (e : ErrV)
    (hq : q ≠ "")
    (hfresh : r.requestsTable.pending.find?
      (fun p => p.1 == getMessageId r.name clock) = none) :
    ((sendMQMsg r (.buf m) ⟨some q, ex⟩ ttlOpt true clock (some e)).1.requestsTable.pending
        = r.requestsTable.pending
      ∧ (sendMQMsg r (.buf m) ⟨some q, ex⟩ ttlOpt true clock (some e)).1.requestsTable.settlements
        = r.requestsTable.settlements ++ [(getMessageId r.name clock, Settlement.rejected e)]
      ∧ (sendMQMsg r (.buf m) ⟨some q, ex⟩ ttlOpt true clock (some e)).2
        = .ok (.future (getMessageId r.name clock)))
    ∧ ((sendMQMsg r (.buf m) ⟨some q, ex⟩ ttlOpt false clock (some e)).2 = .error e
      ∧ (sendMQMsg r (.buf m) ⟨some q, ex⟩ ttlOpt false clock (some e)).1.requestsTable
        = r.requestsTable) := by
  have hv : validateDestination ⟨some q, ex⟩ = .ok true := by
    simp [validateDestination, hq]
  refine ⟨⟨?_, ?_, ?_⟩, ?_, ?_⟩ <;>
    simp [sendMQMsg, hv, buildRequest, RequestsTable.register, hfresh,
      RequestsTable.unregister, List.filter_cons,
      filter_ne_of_find?_eq_none _ _ hfresh]

/-- Witness for C4 at a concrete input: router "A", payload `[1]`, queue
"svc", send failing with an opaque transport error, clock reading (0, 3). -/
theorem c4_send_failure_rolls_back_registration_witness :
    (("svc" : String) ≠ "")
    ∧ routerA.requestsTable.pending.find?
        (fun p => p.1 == getMessageId routerA.name (0, 3)) = none
    ∧ (((sendMQMsg routerA (.buf [1]) ⟨some "svc", ""⟩ none true (0, 3)
          (some (.named "sendfail"))).1.requestsTable.pending
        = routerA.requestsTable.pending
      ∧ (sendMQMsg routerA (.buf [1]) ⟨some "svc", ""⟩ none true (0, 3)
          (some (.named "sendfail"))).1.requestsTable.settlements
        = routerA.requestsTable.settlements
          ++ [(getMessageId routerA.name (0, 3), Settlement.rejected (.named "sendfail"))]
      ∧ (sendMQMsg routerA (.buf [1]) ⟨some "svc", ""⟩ none true (0, 3)
          (some (.named "sendfail"))).2
        = .ok (.future (getMessageId routerA.name (0, 3))))
    ∧ ((sendMQMsg routerA (.buf [1]) ⟨some "svc", ""⟩ none false (0, 3)
          (some (.named "sendfail"))).2 = .error (.named "sendfail")
      ∧ (sendMQMsg routerA (.buf [1]) ⟨some "svc", ""⟩ none false (0, 3)
          (some (.named "sendfail"))).1.requestsTable = routerA.requestsTable)) :=
  ⟨by decide, rfl,
    c4_send_failure_rolls_back_registration routerA [1] "svc" "" none (0, 3)
      (.named "sendfail") (by decide) rfl⟩

/-- Claim C5 (code bug): a delivery tagged "ct-2" arrives while the table
only tracks "ct-1".  `getHandlerByConsumerTag` fails with
`HandlerNotFoundError` and the error collector receives exactly one
notification, as the claim states — but the error `routeMessage` raises and
broadcasts is built by `Reflect.construct(IError, {name, source, cause})`
with a plain object where an argument array is expected, so the `IError` is
constructed with zero arguments: it carries neither the originating
operation's identity (`source`) nor the `HandlerNotFoundError` cause. -/
theorem c5_handler_not_found_wrapper_loses_identity_and_cause :
    (routeMessage routerB oneRegTable ⟨inboundEnv, "ct-2", "q1", "", ""⟩
        (0, 9) none).2.2 = .error .ierrorBare
    ∧ (routeMessage routerB oneRegTable ⟨inboundEnv, "ct-2", "q1", "", ""⟩
        (0, 9) none).2.1 = [⟨.ierrorBare, "ct-2"⟩]
    ∧ errSource .ierrorBare = none
    ∧ errCause .ierrorBare = none
    ∧ (ErrV.ierrorBare ≠ .ierror "MQ_ROUTER_ROUTING_ERROR" "B.MQRouter.routeMessage"
        (.named "HandlerNotFoundError")) := by
  decide

/-- An envelope that is a reply: its `replyTo` carries the correlation id
"req-1". -/
def replyEnv : Envelope := ⟨"A.5", "req-1", ⟨some "rq", ""⟩, "A", "", [1]⟩

/-- An envelope that is an unsolicited direct message: empty `replyTo`. -/
def directEnv : Envelope := ⟨"A.6", "", ⟨some "rq", ""⟩, "A", "", [2]⟩

/-- Claim C6 (code bug): `ownHandler` is claimed to dispatch envelopes with
non-empty `replyTo` to `callById` keyed by that `replyTo`, and envelopes with
empty `replyTo` to the default handler.  The code instead reads
`message.replyId`, a property the envelope does not have (its field is
`replyTo`), so the access yields `undefined`; `undefined === ''` is false,
hence every envelope — reply or not — is dispatched to `callById` with
`id: undefined`, never keyed by the actual `replyTo` and never reaching the
default-handler path (`NoDefaultHandlerError` included). -/
theorem c6_ownHandler_reads_missing_replyId_field :
    ownHandler replyEnv = .callById none replyEnv.message
    ∧ replyEnv.replyTo = "req-1"
    ∧ ownHandler replyEnv ≠ .callById (some replyEnv.replyTo) replyEnv.message
    ∧ directEnv.replyTo = ""
    ∧ ownHandler directEnv ≠ .defaultConsume directEnv.message := by
  decide

/-- Claim C7 (code bug): `validateDestination` does reject `{queue: ''}` and
`{}` and accept a non-empty queue, and it does run before any transport send
in all three outbound paths (`sendMessage`, `sendRequest` via
`sendRequestCore`, and responses via `respondToRequest`) — no send is logged
and the correlation table is untouched when the destination is invalid.  But
the rejection is not an `InvalidDestinationError`: line 563 evaluates
`Reflect.construct(IError({name, source}))`, calling the `IError` class
without `new` (and `Reflect.construct` without an arguments list), which
raises a bare `TypeError` carrying no error name at all; and because
`sendMessage`/`sendRequest` return the `sendMQMsg` promise without `await`,
their catch clauses never fire and that bare `TypeError` reaches the caller
unwrapped. -/
theorem c7_validateDestination_rejects_with_typeError :
    validateDestination ⟨some "", ""⟩ = .error .typeError
    ∧ validateDestination ⟨none, ""⟩ = .error .typeError
    ∧ validateDestination ⟨some "svc", ""⟩ = .ok true
    ∧ errName .typeError = none
    ∧ (ErrV.typeError ≠ .ierror "MQ_ROUTER_VALIDATE_DESTINATION"
        "A.MQRouter.validateDestination" .typeError)
    ∧ (sendMessage routerA (.buf [1]) ⟨some "", ""⟩ none (0, 1) none).1.sends = []
    ∧ (sendMessage routerA (.buf [1]) ⟨some "", ""⟩ none (0, 1) none).2
        = .error .typeError
    ∧ (sendRequestCore routerA (.buf [1]) ⟨some "", ""⟩ none (0, 1) none).1.sends = []
    ∧ (sendRequestCore routerA (.buf [1]) ⟨some "", ""⟩ none (0, 1) none).2
        = .error .typeError
    ∧ (sendRequestCore routerA (.buf [1]) ⟨some "", ""⟩ none (0, 1) none).1.requestsTable
        = routerA.requestsTable
    ∧ (respondToRequest routerA (some (.buf [1])) "A.5" ⟨some "", ""⟩ (0, 1) none).1.sends
        = []
    ∧ (respondToRequest routerA (some (.buf [1])) "A.5" ⟨some "", ""⟩ (0, 1) none).2
        = .error .typeError := by
  decide

/-- Claim C8, counterexample: `options.ttl = 0` is a supplied TTL, yet the
entry is registered with the 5000 ms default, because line 170 computes
`options.ttl || this.defaultTTL` and `0` is falsy in JavaScript. -/
theorem c8_zero_ttl_counterexample :
    (sendMQMsg routerA (.buf [1]) ⟨some "svc", ""⟩ (some 0) true (0, 3)
        none).1.requestsTable.pending = [("A.3", 5000)]
    ∧ ((5000 : Nat) ≠ 0) := by
  decide

/-- Claim C8 as amended (corrected): the public TTL is in seconds and the
internal one in milliseconds — a router constructed with the default TTL of
5 registers a request sent without `options.ttl` with a 5000 ms ttl — and a
supplied *nonzero* `options.ttl` is registered as given in place of the
default (a supplied `0` is falsy to JavaScript `||` and falls back to the
default, see the counterexample). -/
theorem c8_ttl_registration_amended (r : Router) (m : List Nat) (q ex : String)
    (t : Nat) (clock : Nat × Nat)
    (hq : q ≠ "")
    (hfresh : r.requestsTable.pending.find?
      (fun p => p.1 == getMessageId r.name clock) = none)
    (hd : r.defaultTTL = mkRouterDefaultTTL 5) (ht : t ≠ 0) :
    ((sendMQMsg r (.buf m) ⟨some q, ex⟩ none true clock none).1.requestsTable.pending
        = (getMessageId r.name clock, 5000) :: r.requestsTable.pending)
    ∧ ((sendMQMsg r (.buf m) ⟨some q, ex⟩ (some t) true clock none).1.requestsTable.pending
        = (getMessageId r.name clock, t) :: r.requestsTable.pending) := by
  have hv : validateDestination ⟨some q, ex⟩ = .ok true := by
    simp [validateDestination, hq]
  constructor <;>
    simp [sendMQMsg, hv, buildRequest, RequestsTable.register, hfresh, jsOr, hd,
      mkRouterDefaultTTL, MS_FACTOR, ht]

/-- Witness for the amended C8 at a concrete input: router "A" (default TTL
5 s), queue "svc", supplied nonzero ttl 750, clock reading (0, 3). -/
theorem c8_ttl_registration_amended_witness :
    (("svc" : String) ≠ "")
    ∧ routerA.requestsTable.pending.find?
        (fun p => p.1 == getMessageId routerA.name (0, 3)) = none
    ∧ routerA.defaultTTL = mkRouterDefaultTTL 5
    ∧ ((750 : Nat) ≠ 0)
    ∧ (((sendMQMsg routerA (.buf [1]) ⟨some "svc", ""⟩ none true (0, 3)
          none).1.requestsTable.pending
        = (getMessageId routerA.name (0, 3), 5000) :: routerA.requestsTable.pending)
      ∧ ((sendMQMsg routerA (.buf [1]) ⟨some "svc", ""⟩ (some 750) true (0, 3)
          none).1.requestsTable.pending
        = (getMessageId routerA.name (0, 3), 750) :: routerA.requestsTable.pending)) :=
  ⟨by decide, rfl, rfl, by decide,
    c8_ttl_registration_amended routerA [1] "svc" "" 750 (0, 3)
      (by decide) rfl rfl (by decide)⟩

/-- Claim C9 (confirmed): every envelope built by `buildRequest` carries the
id `"<router name>." ++ elapsedNanos` where `elapsedNanos` flattens the
hrtime diff `(seconds, nanos)` as `seconds * NS_FACTOR + nanos`; and for two
distinct clock readings (nanosecond component below one second, as
`process.hrtime` guarantees — the strictly monotonic, non-wrapping clock
assumption) the two envelopes never share an id. -/
theorem c9_message_id_format_and_unique (r : Router) (m1 m2 : List Nat)
    (rid1 rid2 to1 to2 : String) (d1 d2 : Nat × Nat) (e1 e2 : Envelope)
    (h1 : d1.2 < NS_FACTOR) (h2 : d2.2 < NS_FACTOR) (hne : d1 ≠ d2)
    (hb1 : buildRequest r (.buf m1) rid1 to1 d1 = .ok e1)
    (hb2 : buildRequest r (.buf m2) rid2 to2 d2 = .ok e2) :
    e1.id = r.name ++ "." ++ decimalRepr (d1.1 * NS_FACTOR + d1.2)
    ∧ e1.id ≠ e2.id := by
  have he1 : e1.id = getMessageId r.name d1 := by
    simp only [buildRequest, Except.ok.injEq] at hb1
    rw [← hb1]
  have he2 : e2.id = getMessageId r.name d2 := by
    simp only [buildRequest, Except.ok.injEq] at hb2
    rw [← hb2]
  refine ⟨by rw [he1]; rfl, ?_⟩
  rw [he1, he2]
  exact fun h => hne (getMessageId_inj h1 h2 h)

/-- The envelope router "A" builds at clock reading (0, 1). -/
def envAt1 : Envelope := ⟨"A.1", "", ⟨some "A-q", ""⟩, "A", "", [1]⟩

/-- The envelope router "A" builds at clock reading (0, 2). -/
def envAt2 : Envelope := ⟨"A.2", "", ⟨some "A-q", ""⟩, "A", "", [2]⟩

/-- Witness for C9 at concrete inputs: two builds by router "A" at clock
readings (0, 1) and (0, 2). -/
theorem c9_message_id_format_and_unique_witness :
    ((0, 1) : Nat × Nat).2 < NS_FACTOR
    ∧ ((0, 2) : Nat × Nat).2 < NS_FACTOR
    ∧ (((0, 1) : Nat × Nat) ≠ (0, 2))
    ∧ buildRequest routerA (.buf [1]) "" "" (0, 1) = .ok envAt1
    ∧ buildRequest routerA (.buf [2]) "" "" (0, 2) = .ok envAt2
    ∧ (envAt1.id = routerA.name ++ "." ++ decimalRepr (0 * NS_FACTOR + 1)
      ∧ envAt1.id ≠ envAt2.id) :=
  ⟨by decide, by decide, by decide, by decide, by decide,
    c9_message_id_format_and_unique routerA [1] [2] "" "" "" "" (0, 1) (0, 2)
      envAt1 envAt2 (by decide) (by decide) (by decide) (by decide) (by decide)⟩

/-- Claim C10 (confirmed): a fire-and-forget `sendMQMsg` (`isRequest =
false`, i.e. `sendMessage` or a handler response) leaves the request
correlation table exactly as it was, whatever the destination, ttl option
and send outcome — only the `isRequest = true` path of `sendMQMsg` touches
it; and `respondToRequest` for a `null` handler result returns `true`
without changing any router state (in particular it sends nothing). -/
theorem c10_fire_and_forget_leaves_correlation_table (r : Router) (m : MsgVal)
    (d : Destination) (ttlOpt : Option Nat) (clock : Nat × Nat)
    (sendOutcome : Option ErrV) (replyId : String) :
    (sendMQMsg r m d ttlOpt false clock sendOutcome).1.requestsTable = r.requestsTable
    ∧ respondToRequest r none replyId d clock sendOutcome = (r, .ok .boolTrue)
    ∧ (respondToRequest r (some m) replyId d clock sendOutcome).1.requestsTable
        = r.requestsTable := by
  refine ⟨?_, rfl, ?_⟩ <;>
  · simp only [sendMQMsg, respondToRequest]
    repeat' split
    all_goals simp

end MQRouter
